import Mathlib

/-!
Verification of the GenAI-Learning-Lab demo repository.

Shallow embedding of the thermostat demos
(`concepts/agentic-ai-vs-ai-agents/demo/agent_based_thermostat.py`,
`rule_based_thermostat.py`, `advanced_agentic_thermostat.py`) and of the
workflow decision engine
(`concepts/openai-agent-building-guide/demo/workflow_decision_demo.py`).

Python `float` values are modelled as exact rationals (`ℚ`); the claims under
study are about control flow and arithmetic structure, not binary rounding.
Mutation of `self` is modelled by explicit state passing: a method that
mutates its object becomes a function `State → ... → State` (returning the
method's return value alongside the new state where the method returns one).
Randomness and wall-clock data consumed by `advanced_agentic_thermostat.py`
are passed in as explicit parameters.
-/

namespace GenAILab

/-- Python's `lst[-n:]` slice (for `n > 0`): the last `n` elements of the
list, or the whole list when it is shorter than `n`. -/
def lastSlice (n : Nat) (l : List α) : List α := l.drop (l.length - n)

/-! ## `agent_based_thermostat.py` : class `AgentBasedThermostat` -/

/-- The mutable attributes of `AgentBasedThermostat` set in `__init__`
(lines 27-33): `preferred_temp`, `temperature_history`, `action_history`,
`learning_rate`, `tolerance`. -/
structure AgentBasedThermostat where
  preferred_temp : ℚ
  temperature_history : List ℚ
  action_history : List String
  learning_rate : ℚ
  tolerance : ℚ
  deriving Repr, DecidableEq

/-- `AgentBasedThermostat.__init__(initial_preferred_temp=22.0)`: empty
histories, `learning_rate = 0.1`, `tolerance = 2.0`. -/
def AgentBasedThermostat.init (initial_preferred_temp : ℚ) : AgentBasedThermostat :=
  { preferred_temp := initial_preferred_temp
    temperature_history := []
    action_history := []
    learning_rate := 1/10
    tolerance := 2 }

/-- `AgentBasedThermostat.perceive(current_temp)` (lines 41-46): append the
reading; if the history then exceeds 10 entries, keep the last 10. -/
def AgentBasedThermostat.perceive (s : AgentBasedThermostat) (current_temp : ℚ) :
    AgentBasedThermostat :=
  let h := s.temperature_history ++ [current_temp]
  { s with temperature_history := if h.length > 10 then lastSlice 10 h else h }

/-- `AgentBasedThermostat.learn_and_adapt()` (lines 48-64): when the history
has at least 3 entries, compare the mean of the last 3 readings with the
comfort band `preferred_temp ± tolerance`, step `preferred_temp` by
`learning_rate` toward the trend when the mean is outside the band, and clamp
the result to `[18, 26]` via `max(18, min(26, ·))`. Otherwise do nothing. -/
def AgentBasedThermostat.learn_and_adapt (s : AgentBasedThermostat) : AgentBasedThermostat :=
  if s.temperature_history.length ≥ 3 then
    let recent_temps := lastSlice 3 s.temperature_history
    let avg_recent := recent_temps.sum / (recent_temps.length : ℚ)
    let adjusted :=
      if avg_recent > s.preferred_temp + s.tolerance then
        s.preferred_temp + s.learning_rate
      else if avg_recent < s.preferred_temp - s.tolerance then
        s.preferred_temp - s.learning_rate
      else
        s.preferred_temp
    { s with preferred_temp := max 18 (min 26 adjusted) }
  else s

/-- `AgentBasedThermostat.decide_action(current_temp)` (lines 66-93):
`perceive`, then `learn_and_adapt`, then classify `current_temp` against the
post-adaptation band `[preferred_temp - tolerance, preferred_temp + tolerance]`,
append the chosen action to `action_history` (truncated to the last 10), and
return the action. Returns the pair (return value, new state). -/
def AgentBasedThermostat.decide_action (s : AgentBasedThermostat) (current_temp : ℚ) :
    String × AgentBasedThermostat :=
  let s1 := s.perceive current_temp
  let s2 := s1.learn_and_adapt
  let lower_bound := s2.preferred_temp - s2.tolerance
  let upper_bound := s2.preferred_temp + s2.tolerance
  let action :=
    if current_temp < lower_bound then "Turn ON Heater"
    else if current_temp > upper_bound then "Turn ON AC"
    else "Maintain"
  let ah := s2.action_history ++ [action]
  (action, { s2 with action_history := if ah.length > 10 then lastSlice 10 ah else ah })

/-! ## `rule_based_thermostat.py` : class `RuleBasedThermostat` -/

/-- The attributes of `RuleBasedThermostat` set in `__init__` (lines 24-27):
the two fixed thresholds. -/
structure RuleBasedThermostat where
  heat_threshold : ℚ
  cool_threshold : ℚ
  deriving Repr, DecidableEq

/-- `RuleBasedThermostat.__init__()`: `heat_threshold = 18`,
`cool_threshold = 25`. -/
def RuleBasedThermostat.init : RuleBasedThermostat :=
  { heat_threshold := 18, cool_threshold := 25 }

/-- `RuleBasedThermostat.decide_action(current_temp)` (lines 34-44): threshold
comparison only; the method reads the two fixed thresholds and touches no
state, so it is modelled as a plain function of the state and the reading. -/
def RuleBasedThermostat.decide_action (s : RuleBasedThermostat) (current_temp : ℚ) : String :=
  if current_temp < s.heat_threshold then "Turn ON Heater"
  else if current_temp > s.cool_threshold then "Turn ON AC"
  else "Do Nothing"

/-! ## `advanced_agentic_thermostat.py` : the `performance_memory` fragment

Only the state touched by `learn_from_experience` is embedded; the
perceive/reflect/plan/execute stages print narration and draw random mock
data, so the data their outputs contribute to the memory entry (dates,
satisfaction score, costs, lessons) enters here as an explicit
already-built `PerformanceMemory` argument. -/

/-- The `PerformanceMemory` dataclass (lines 29-39). -/
structure PerformanceMemory where
  date : String
  target_temp : ℚ
  start_time : String
  actual_completion_time : String
  energy_cost : ℚ
  user_satisfaction : ℤ
  weather_factor : String
  lessons_learned : String
  deriving Repr, DecidableEq

/-- The attributes of `AdvancedAgenticThermostat.__init__` that
`learn_from_experience` reads or writes: the goal string and the
performance memory list. -/
structure AdvancedAgenticThermostat where
  goal : String
  performance_memory : List PerformanceMemory
  deriving Repr, DecidableEq

/-- `AdvancedAgenticThermostat.__init__()`: fixed goal, empty memory. -/
def AdvancedAgenticThermostat.init : AdvancedAgenticThermostat :=
  { goal := "Ensure room is 22°C by 10:00 PM and maintain during sleep"
    performance_memory := [] }

/-- `AdvancedAgenticThermostat.learn_from_experience(context, plan, result)`
(lines 255-281): build a `PerformanceMemory` entry (here passed in, since its
fields come from randomness, the clock, and the mock-data context), append it,
and keep only the last 30 entries when the list exceeds 30. -/
def AdvancedAgenticThermostat.learn_from_experience (s : AdvancedAgenticThermostat)
    (memory_entry : PerformanceMemory) : AdvancedAgenticThermostat :=
  let pm := s.performance_memory ++ [memory_entry]
  { s with performance_memory := if pm.length > 30 then lastSlice 30 pm else pm }

/-! ## Call traces

`CLAIMS` quantifies over "every sequence of calls"; a call sequence is a list
of events replayed from the freshly constructed object. -/

/-- One call to a mutating method of `AgentBasedThermostat`. -/
inductive AgentCall
  | perceive (t : ℚ)
  | learn_and_adapt
  | decide_action (t : ℚ)
  deriving Repr

/-- Apply one call to an `AgentBasedThermostat` state. -/
def AgentCall.apply (s : AgentBasedThermostat) : AgentCall → AgentBasedThermostat
  | .perceive t => s.perceive t
  | .learn_and_adapt => s.learn_and_adapt
  | .decide_action t => (s.decide_action t).2

/-- Replay a sequence of calls from a state. -/
def runAgentCalls (s : AgentBasedThermostat) (calls : List AgentCall) : AgentBasedThermostat :=
  calls.foldl AgentCall.apply s

/-- Replay a sequence of `learn_from_experience` calls (one per entry) from an
`AdvancedAgenticThermostat` state. -/
def runLearnCalls (s : AdvancedAgenticThermostat) (entries : List PerformanceMemory) :
    AdvancedAgenticThermostat :=
  entries.foldl AdvancedAgenticThermostat.learn_from_experience s

/-- Actions returned by feeding a list of temperatures through
`decide_action`, with the final state (the `__main__` demo loop of
`agent_based_thermostat.py`, lines 118-123). -/
def runDecisions (s : AgentBasedThermostat) : List ℚ → List String × AgentBasedThermostat
  | [] => ([], s)
  | t :: ts =>
    let (action, s1) := s.decide_action t
    let (rest, s2) := runDecisions s1 ts
    (action :: rest, s2)

/-! ## `workflow_decision_demo.py` : class `WorkflowDecisionEngine`

The engine's `evaluate_workflow` walks node names through a hand-coded
`if/elif` chain while the current node is a key of the `decision_tree` dict;
the dict's `question`/`yes`/`no` payloads are narration only and are not read
by the walk. `_generate_recommendation` copies `automation_type` into the
returned `Recommendation` unchanged; the string-list payload fields
(reasoning, steps, risks, metrics, examples) are presentational and not
embedded. -/

/-- The `AutomationType` enum (lines 19-26). -/
inductive AutomationType
  | TRADITIONAL
  | CHATBOT
  | SINGLE_AGENT
  | MANAGER_PATTERN
  | HANDOFF_PATTERN
  | HYBRID
  | NOT_SUITABLE
  deriving Repr, DecidableEq

/-- The `DecisionCriteria` dataclass (lines 28-42). `sequential_vs_parallel`
is a free-form string compared against `"sequential"`. -/
structure DecisionCriteria where
  well_defined_workflow : Bool
  requires_dynamic_decisions : Bool
  clear_success_criteria : Bool
  involves_nlp : Bool
  tolerates_variability : Bool
  human_oversight_acceptable : Bool
  multiple_interdependent_steps : Bool
  needs_external_integration : Bool
  mission_critical : Bool
  comprehensive_guardrails_possible : Bool
  multiple_users_concurrent : Bool
  needs_specialized_expertise : Bool
  needs_centralized_coordination : Bool
  sequential_vs_parallel : String
  deriving Repr, DecidableEq

/-- The key set of the dict built by `_build_decision_tree` (lines 59-132):
the loop of `evaluate_workflow` continues exactly while the current node is
one of these. -/
def decisionTreeKeys : List String :=
  ["start", "requires_dynamic", "clear_success", "human_oversight", "involves_nlp",
   "tolerates_variability", "multiple_steps", "external_integration", "mission_critical",
   "multiple_users", "comprehensive_guardrails", "specialized_expertise",
   "centralized_coordination", "sequential_parallel"]

/-- The `if current_node == ... / elif ...` chain in `evaluate_workflow`
(lines 141-171): the successor of each tree node under the given criteria.
For a node outside the chain (which the loop guard makes unreachable, since
the chain covers every key) the Python `else: break` leaves the node as is. -/
def nextNode (criteria : DecisionCriteria) (node : String) : String :=
  if node = "start" then
    if criteria.well_defined_workflow then "requires_dynamic" else "clear_success"
  else if node = "requires_dynamic" then
    if criteria.requires_dynamic_decisions then "human_oversight" else "traditional"
  else if node = "clear_success" then
    if criteria.clear_success_criteria then "involves_nlp" else "not_suitable"
  else if node = "human_oversight" then
    if criteria.human_oversight_acceptable then "multiple_steps" else "traditional"
  else if node = "involves_nlp" then
    if criteria.involves_nlp then "tolerates_variability" else "traditional"
  else if node = "tolerates_variability" then
    if criteria.tolerates_variability then "mission_critical" else "traditional"
  else if node = "multiple_steps" then
    if criteria.multiple_interdependent_steps then "external_integration" else "simple_chatbot"
  else if node = "external_integration" then
    if criteria.needs_external_integration then "multiple_users" else "simple_chatbot"
  else if node = "mission_critical" then
    if criteria.mission_critical then "comprehensive_guardrails" else "single_agent"
  else if node = "multiple_users" then
    if criteria.multiple_users_concurrent then "specialized_expertise" else "single_agent"
  else if node = "comprehensive_guardrails" then
    if criteria.comprehensive_guardrails_possible then "single_agent" else "hybrid"
  else if node = "specialized_expertise" then
    if criteria.needs_specialized_expertise then "sequential_parallel"
    else "centralized_coordination"
  else if node = "centralized_coordination" then
    if criteria.needs_centralized_coordination then "manager_pattern" else "single_agent"
  else if node = "sequential_parallel" then
    if criteria.sequential_vs_parallel = "sequential" then "handoff_pattern"
    else "manager_pattern"
  else node

/-- The `while current_node in self.decision_tree` loop of `evaluate_workflow`
(lines 137-172), with explicit fuel: returns the final node and the visited
path (`path.append(current_node)` before each step). -/
def walkTree (criteria : DecisionCriteria) : Nat → String → List String → String × List String
  | 0, node, path => (node, path)
  | fuel + 1, node, path =>
    if node ∈ decisionTreeKeys then
      walkTree criteria fuel (nextNode criteria node) (path ++ [node])
    else (node, path)

/-- The `automation_type_map` dict with `.get(current_node,
AutomationType.NOT_SUITABLE)` default (lines 175-185). -/
def automationTypeMap (node : String) : AutomationType :=
  if node = "traditional" then .TRADITIONAL
  else if node = "simple_chatbot" then .CHATBOT
  else if node = "single_agent" then .SINGLE_AGENT
  else if node = "manager_pattern" then .MANAGER_PATTERN
  else if node = "handoff_pattern" then .HANDOFF_PATTERN
  else if node = "hybrid" then .HYBRID
  else if node = "not_suitable" then .NOT_SUITABLE
  else .NOT_SUITABLE

/-- `WorkflowDecisionEngine.evaluate_workflow(criteria)` (lines 134-187):
walk from `"start"` (14 units of fuel — one per tree key — never run out, as
proved below) and map the terminal node to the recommended automation type;
the walk's visited path is returned alongside. -/
def evaluate_workflow (criteria : DecisionCriteria) : AutomationType × List String :=
  let (final, path) := walkTree criteria 14 "start" []
  (automationTypeMap final, path)

/-! ## Basic lemmas about the embedding -/

theorem lastSlice_length (n : Nat) (l : List α) :
    (lastSlice n l).length = l.length - (l.length - n) := by
  simp [lastSlice]

theorem lastSlice_le (n : Nat) (l : List α) : (lastSlice n l).length ≤ n := by
  rw [lastSlice_length]; omega

theorem lastSlice_of_le (n : Nat) (l : List α) (h : l.length ≤ n) : lastSlice n l = l := by
  unfold lastSlice
  rw [Nat.sub_eq_zero_of_le h, List.drop_zero]

theorem bound_if_eq_lastSlice (n : Nat) (l : List α) :
    (if l.length > n then lastSlice n l else l) = lastSlice n l := by
  split
  · rfl
  · exact (lastSlice_of_le n l (by omega)).symm

namespace AgentBasedThermostat

theorem perceive_temperature_history (s : AgentBasedThermostat) (t : ℚ) :
    (s.perceive t).temperature_history = lastSlice 10 (s.temperature_history ++ [t]) := by
  simp only [perceive]
  exact bound_if_eq_lastSlice 10 _

theorem perceive_preferred_temp (s : AgentBasedThermostat) (t : ℚ) :
    (s.perceive t).preferred_temp = s.preferred_temp := rfl

theorem perceive_action_history (s : AgentBasedThermostat) (t : ℚ) :
    (s.perceive t).action_history = s.action_history := rfl

theorem perceive_tolerance (s : AgentBasedThermostat) (t : ℚ) :
    (s.perceive t).tolerance = s.tolerance := rfl

theorem perceive_learning_rate (s : AgentBasedThermostat) (t : ℚ) :
    (s.perceive t).learning_rate = s.learning_rate := rfl

theorem learn_and_adapt_temperature_history (s : AgentBasedThermostat) :
    s.learn_and_adapt.temperature_history = s.temperature_history := by
  simp only [learn_and_adapt]
  split <;> rfl

theorem learn_and_adapt_action_history (s : AgentBasedThermostat) :
    s.learn_and_adapt.action_history = s.action_history := by
  simp only [learn_and_adapt]
  split <;> rfl

theorem learn_and_adapt_tolerance (s : AgentBasedThermostat) :
    s.learn_and_adapt.tolerance = s.tolerance := by
  simp only [learn_and_adapt]
  split <;> rfl

theorem learn_and_adapt_learning_rate (s : AgentBasedThermostat) :
    s.learn_and_adapt.learning_rate = s.learning_rate := by
  simp only [learn_and_adapt]
  split <;> rfl

theorem learn_and_adapt_of_short (s : AgentBasedThermostat)
    (h : s.temperature_history.length < 3) : s.learn_and_adapt = s := by
  simp only [learn_and_adapt]
  rw [if_neg (by omega)]

/-- When the history holds at least 3 readings, `learn_and_adapt` sets the
preference to the clamp of the three-way comparison of the last-3 mean with
the comfort band. -/
theorem learn_and_adapt_preferred (s : AgentBasedThermostat)
    (h : 3 ≤ s.temperature_history.length) :
    s.learn_and_adapt.preferred_temp =
      max 18 (min 26
        (if (lastSlice 3 s.temperature_history).sum / 3 > s.preferred_temp + s.tolerance then
          s.preferred_temp + s.learning_rate
        else if (lastSlice 3 s.temperature_history).sum / 3 < s.preferred_temp - s.tolerance then
          s.preferred_temp - s.learning_rate
        else s.preferred_temp)) := by
  have hlen : ((lastSlice 3 s.temperature_history).length : ℚ) = 3 := by
    rw [lastSlice_length]
    norm_cast
    omega
  simp only [learn_and_adapt, ge_iff_le, if_pos h, hlen]

/-- The action returned by `decide_action` is the classification of the
reading against the post-adaptation band (the tolerance itself is never
changed by `perceive` or `learn_and_adapt`). -/
theorem decide_action_fst (s : AgentBasedThermostat) (t : ℚ) :
    (s.decide_action t).1 =
      if t < ((s.perceive t).learn_and_adapt).preferred_temp - s.tolerance then "Turn ON Heater"
      else if t > ((s.perceive t).learn_and_adapt).preferred_temp + s.tolerance then "Turn ON AC"
      else "Maintain" := by
  simp [decide_action, learn_and_adapt_tolerance, perceive_tolerance]

theorem decide_action_temperature_history (s : AgentBasedThermostat) (t : ℚ) :
    (s.decide_action t).2.temperature_history = lastSlice 10 (s.temperature_history ++ [t]) := by
  simp [decide_action, learn_and_adapt_temperature_history, perceive_temperature_history]

theorem decide_action_preferred_temp (s : AgentBasedThermostat) (t : ℚ) :
    (s.decide_action t).2.preferred_temp = ((s.perceive t).learn_and_adapt).preferred_temp := rfl

theorem decide_action_tolerance (s : AgentBasedThermostat) (t : ℚ) :
    (s.decide_action t).2.tolerance = s.tolerance := by
  simp [decide_action, learn_and_adapt_tolerance, perceive_tolerance]

theorem decide_action_learning_rate (s : AgentBasedThermostat) (t : ℚ) :
    (s.decide_action t).2.learning_rate = s.learning_rate := by
  simp [decide_action, learn_and_adapt_learning_rate, perceive_learning_rate]

theorem decide_action_action_history (s : AgentBasedThermostat) (t : ℚ) :
    (s.decide_action t).2.action_history
      = lastSlice 10 (s.action_history ++ [(s.decide_action t).1]) := by
  conv_lhs => rw [decide_action]
  rw [bound_if_eq_lastSlice, learn_and_adapt_action_history, perceive_action_history,
    decide_action_fst]
  simp [learn_and_adapt_tolerance, perceive_tolerance]

/-- `learn_and_adapt` updates the preference through the history, the prior
preference, the tolerance and the learning rate only (it never reads the
action log). -/
theorem learn_and_adapt_pref_congr (s₁ s₂ : AgentBasedThermostat)
    (hh : s₁.temperature_history = s₂.temperature_history)
    (hp : s₁.preferred_temp = s₂.preferred_temp)
    (ht : s₁.tolerance = s₂.tolerance)
    (hl : s₁.learning_rate = s₂.learning_rate) :
    s₁.learn_and_adapt.preferred_temp = s₂.learn_and_adapt.preferred_temp := by
  simp only [learn_and_adapt, hh, hp, ht, hl]
  split <;> simp [hp]

end AgentBasedThermostat

/-! ## Bounded-history invariants along call traces -/

theorem AgentCall.apply_bounded (s : AgentBasedThermostat) (c : AgentCall)
    (h : s.temperature_history.length ≤ 10 ∧ s.action_history.length ≤ 10) :
    (c.apply s).temperature_history.length ≤ 10 ∧
      (c.apply s).action_history.length ≤ 10 := by
  cases c with
  | perceive t =>
    refine ⟨?_, h.2⟩
    show (s.perceive t).temperature_history.length ≤ 10
    rw [AgentBasedThermostat.perceive_temperature_history]
    exact lastSlice_le 10 _
  | learn_and_adapt =>
    show s.learn_and_adapt.temperature_history.length ≤ 10 ∧
      s.learn_and_adapt.action_history.length ≤ 10
    rw [AgentBasedThermostat.learn_and_adapt_temperature_history,
      AgentBasedThermostat.learn_and_adapt_action_history]
    exact h
  | decide_action t =>
    show ((s.decide_action t).2).temperature_history.length ≤ 10 ∧
      ((s.decide_action t).2).action_history.length ≤ 10
    rw [AgentBasedThermostat.decide_action_temperature_history,
      AgentBasedThermostat.decide_action_action_history]
    exact ⟨lastSlice_le 10 _, lastSlice_le 10 _⟩

theorem runAgentCalls_bounded (s : AgentBasedThermostat)
    (h : s.temperature_history.length ≤ 10 ∧ s.action_history.length ≤ 10)
    (calls : List AgentCall) :
    (runAgentCalls s calls).temperature_history.length ≤ 10 ∧
      (runAgentCalls s calls).action_history.length ≤ 10 := by
  induction calls generalizing s with
  | nil => exact h
  | cons c cs ih => exact ih _ (AgentCall.apply_bounded s c h)

theorem learn_from_experience_bounded (s : AdvancedAgenticThermostat)
    (e : PerformanceMemory) :
    (s.learn_from_experience e).performance_memory.length ≤ 30 := by
  simp only [AdvancedAgenticThermostat.learn_from_experience]
  rw [bound_if_eq_lastSlice]
  exact lastSlice_le 30 _

theorem runLearnCalls_bounded (s : AdvancedAgenticThermostat)
    (h : s.performance_memory.length ≤ 30) (entries : List PerformanceMemory) :
    (runLearnCalls s entries).performance_memory.length ≤ 30 := by
  induction entries generalizing s with
  | nil => exact h
  | cons e es ih => exact ih _ (learn_from_experience_bounded s e)

/-- A list of length 3 whose members all exceed `c` has mean above `c`. -/
theorem sum_div_three_gt (l : List ℚ) (c : ℚ) (hlen : l.length = 3)
    (h : ∀ x ∈ l, c < x) : c < l.sum / 3 := by
  obtain ⟨a, b, d, rfl⟩ := List.length_eq_three.mp hlen
  have ha := h a (by simp)
  have hb := h b (by simp)
  have hd := h d (by simp)
  simp only [List.sum_cons, List.sum_nil, add_zero]
  linarith

/-! ## Claims -/

/-- C1: with at least 3 readings in the history, `learn_and_adapt` takes the
mean of the last 3 observations and steps `preferred_temp` up by
`learning_rate` when the mean is above `preferred_temp + tolerance`, down by
`learning_rate` when below `preferred_temp - tolerance`, leaves it as is
otherwise, and clamps the result to `[18, 26]`; the outcome is a function of
the history and the prior preference (determinism is definitional here, since
the embedding is a pure function). The `0 ≤ tolerance` hypothesis records
that the comfort band is not inverted; every instance the program constructs
has `tolerance = 2`. -/
theorem learn_and_adapt_three_cases (s : AgentBasedThermostat)
    (h : 3 ≤ s.temperature_history.length) (htol : 0 ≤ s.tolerance) :
    ((lastSlice 3 s.temperature_history).sum / 3 > s.preferred_temp + s.tolerance →
      s.learn_and_adapt.preferred_temp
        = max 18 (min 26 (s.preferred_temp + s.learning_rate))) ∧
    ((lastSlice 3 s.temperature_history).sum / 3 < s.preferred_temp - s.tolerance →
      s.learn_and_adapt.preferred_temp
        = max 18 (min 26 (s.preferred_temp - s.learning_rate))) ∧
    (s.preferred_temp - s.tolerance ≤ (lastSlice 3 s.temperature_history).sum / 3 →
      (lastSlice 3 s.temperature_history).sum / 3 ≤ s.preferred_temp + s.tolerance →
      s.learn_and_adapt.preferred_temp = max 18 (min 26 s.preferred_temp)) := by
  rw [AgentBasedThermostat.learn_and_adapt_preferred s h]
  refine ⟨fun h1 => ?_, fun h2 => ?_, fun h3 h4 => ?_⟩
  · rw [if_pos h1]
  · rw [if_neg (by linarith), if_pos h2]
  · rw [if_neg (by linarith), if_neg (by linarith)]

/-- Witness for C1 at the state `⟨22, [30, 30, 30], [], 1/10, 2⟩`: the
last-3 mean is 30, above the band, so the preference steps to
`clamp(22 + 0.1)`. -/
theorem learn_and_adapt_three_cases_witness :
    (AgentBasedThermostat.mk 22 [30, 30, 30] [] (1/10) 2).learn_and_adapt.preferred_temp
      = max 18 (min 26 (22 + 1/10)) :=
  (learn_and_adapt_three_cases (AgentBasedThermostat.mk 22 [30, 30, 30] [] (1/10) 2)
    (by decide) (by norm_num)).1 (by norm_num [lastSlice])

/-- Counterexample to C3 as stated: a thermostat constructed with
`initial_preferred_temp = 50` and an empty history: `learn_and_adapt` is a
no-op below 3 readings, so the preference stays 50, outside `[18, 26]`. -/
theorem clamp_counterexample :
    ¬(18 ≤ (AgentBasedThermostat.init 50).learn_and_adapt.preferred_temp ∧
      (AgentBasedThermostat.init 50).learn_and_adapt.preferred_temp ≤ 26) := by
  rw [AgentBasedThermostat.learn_and_adapt_of_short (AgentBasedThermostat.init 50) (by decide)]
  norm_num [AgentBasedThermostat.init]

/-- C3 (amended): after `learn_and_adapt`, `preferred_temp` lies in
`[18, 26]` whenever the history holds at least 3 readings (the clamp is
applied); with fewer readings the call is a no-op, so the preference stays in
`[18, 26]` exactly when it already was there. -/
theorem learn_and_adapt_clamped (s : AgentBasedThermostat) :
    (3 ≤ s.temperature_history.length →
      18 ≤ s.learn_and_adapt.preferred_temp ∧ s.learn_and_adapt.preferred_temp ≤ 26) ∧
    (18 ≤ s.preferred_temp → s.preferred_temp ≤ 26 →
      18 ≤ s.learn_and_adapt.preferred_temp ∧ s.learn_and_adapt.preferred_temp ≤ 26) := by
  have clamped : ∀ x : ℚ, 18 ≤ max 18 (min 26 x) ∧ max 18 (min 26 x) ≤ 26 := fun x =>
    ⟨le_max_left _ _, max_le (by norm_num) (min_le_left _ _)⟩
  constructor
  · intro h
    rw [AgentBasedThermostat.learn_and_adapt_preferred s h]
    exact clamped _
  · intro h1 h2
    rcases lt_or_le s.temperature_history.length 3 with h | h
    · rw [AgentBasedThermostat.learn_and_adapt_of_short s h]
      exact ⟨h1, h2⟩
    · rw [AgentBasedThermostat.learn_and_adapt_preferred s h]
      exact clamped _

/-- Witness for C3 (amended) at the state `⟨30, [28, 29, 30], [], 1/10, 2⟩`:
three readings present, so the clamped preference lands in `[18, 26]`. -/
theorem learn_and_adapt_clamped_witness :
    18 ≤ (AgentBasedThermostat.mk 30 [28, 29, 30] [] (1/10) 2).learn_and_adapt.preferred_temp ∧
    (AgentBasedThermostat.mk 30 [28, 29, 30] [] (1/10) 2).learn_and_adapt.preferred_temp ≤ 26 :=
  (learn_and_adapt_clamped (AgentBasedThermostat.mk 30 [28, 29, 30] [] (1/10) 2)).1 (by decide)

/-- C6: with fewer than 3 observations, `learn_and_adapt` is a complete
no-op: the whole state (in particular `preferred_temp`) is unchanged, hence
the call is idempotent in that state. -/
theorem learn_and_adapt_short_noop (s : AgentBasedThermostat)
    (h : s.temperature_history.length < 3) : s.learn_and_adapt = s :=
  AgentBasedThermostat.learn_and_adapt_of_short s h

/-- Witness for C6 at a freshly constructed thermostat with two readings. -/
theorem learn_and_adapt_short_noop_witness :
    (AgentBasedThermostat.mk 22 [16, 19] [] (1/10) 2).learn_and_adapt
      = AgentBasedThermostat.mk 22 [16, 19] [] (1/10) 2 :=
  learn_and_adapt_short_noop (AgentBasedThermostat.mk 22 [16, 19] [] (1/10) 2) (by decide)

/-- C7: a qualifying call — all of the last 3 observations strictly above
`preferred_temp + tolerance`, hence so is their mean — raises the preference
by exactly `learning_rate`, subject to the `[18, 26]` clamp. Feeding three
consecutive hot values makes each call with this property step the preference
once. -/
theorem hot_window_increments (s : AgentBasedThermostat)
    (h : 3 ≤ s.temperature_history.length)
    (hhot : ∀ x ∈ lastSlice 3 s.temperature_history, s.preferred_temp + s.tolerance < x) :
    s.learn_and_adapt.preferred_temp
      = max 18 (min 26 (s.preferred_temp + s.learning_rate)) := by
  have hlen : (lastSlice 3 s.temperature_history).length = 3 := by
    rw [lastSlice_length]; omega
  have hmean := sum_div_three_gt _ _ hlen hhot
  rw [AgentBasedThermostat.learn_and_adapt_preferred s h, if_pos hmean]

/-- Witness for C7 at the state `⟨20, [25, 26, 27], [], 1/10, 2⟩`: all of the
last 3 readings exceed `20 + 2`, and the preference steps to
`clamp(20 + 0.1)`. -/
theorem hot_window_increments_witness :
    (AgentBasedThermostat.mk 20 [25, 26, 27] [] (1/10) 2).learn_and_adapt.preferred_temp
      = max 18 (min 26 (20 + 1/10)) :=
  hot_window_increments (AgentBasedThermostat.mk 20 [25, 26, 27] [] (1/10) 2)
    (by decide) (by norm_num [lastSlice])

/-- C2: along every call sequence from a freshly constructed
`AgentBasedThermostat`, `temperature_history` and `action_history` stay at
length at most 10, and along every sequence of `learn_from_experience` calls
from a freshly constructed `AdvancedAgenticThermostat`, `performance_memory`
stays at length at most 30. -/
theorem bounded_histories_invariant (p0 : ℚ) (calls : List AgentCall)
    (entries : List PerformanceMemory) :
    (runAgentCalls (AgentBasedThermostat.init p0) calls).temperature_history.length ≤ 10 ∧
    (runAgentCalls (AgentBasedThermostat.init p0) calls).action_history.length ≤ 10 ∧
    (runLearnCalls AdvancedAgenticThermostat.init entries).performance_memory.length ≤ 30 := by
  have h0 : (AgentBasedThermostat.init p0).temperature_history.length ≤ 10 ∧
      (AgentBasedThermostat.init p0).action_history.length ≤ 10 := by
    simp [AgentBasedThermostat.init]
  refine ⟨(runAgentCalls_bounded _ h0 calls).1, (runAgentCalls_bounded _ h0 calls).2, ?_⟩
  exact runLearnCalls_bounded _ (by simp [AdvancedAgenticThermostat.init]) entries

/-- C4: `decide_action` appends the reading to the (bounded) history, runs
`learn_and_adapt`, classifies the reading against the band
`[preferred_temp - tolerance, preferred_temp + tolerance]` around the
post-adaptation preference — strictly below the band gives the heater action,
strictly above gives the AC action, inside (endpoints included) gives
maintain — and appends the returned action to the bounded action log. The
`0 ≤ tolerance` hypothesis records that the band is not inverted; every
instance the program constructs has `tolerance = 2`. -/
theorem decide_action_classifies (s : AgentBasedThermostat) (t : ℚ)
    (htol : 0 ≤ s.tolerance) :
    (s.decide_action t).2.temperature_history = lastSlice 10 (s.temperature_history ++ [t]) ∧
    (s.decide_action t).2.preferred_temp = ((s.perceive t).learn_and_adapt).preferred_temp ∧
    (t < ((s.perceive t).learn_and_adapt).preferred_temp - s.tolerance →
      (s.decide_action t).1 = "Turn ON Heater") ∧
    (((s.perceive t).learn_and_adapt).preferred_temp + s.tolerance < t →
      (s.decide_action t).1 = "Turn ON AC") ∧
    (((s.perceive t).learn_and_adapt).preferred_temp - s.tolerance ≤ t →
      t ≤ ((s.perceive t).learn_and_adapt).preferred_temp + s.tolerance →
      (s.decide_action t).1 = "Maintain") ∧
    (s.decide_action t).2.action_history
      = lastSlice 10 (s.action_history ++ [(s.decide_action t).1]) ∧
    (s.decide_action t).2.action_history.length ≤ 10 := by
  refine ⟨AgentBasedThermostat.decide_action_temperature_history s t, rfl, ?_, ?_, ?_,
    AgentBasedThermostat.decide_action_action_history s t, ?_⟩
  · intro h
    rw [AgentBasedThermostat.decide_action_fst, if_pos h]
  · intro h
    rw [AgentBasedThermostat.decide_action_fst, if_neg (by push_neg; linarith),
      if_pos (by exact h)]
  · intro h1 h2
    rw [AgentBasedThermostat.decide_action_fst, if_neg (not_lt.mpr h1),
      if_neg (not_lt.mpr h2)]
  · rw [AgentBasedThermostat.decide_action_action_history]
    exact lastSlice_le 10 _

/-- Witness for C4: a fresh thermostat reading 16°C: one observation, no
adaptation, band `[20, 24]`, so the heater turns on. -/
theorem decide_action_classifies_witness :
    ((AgentBasedThermostat.init 22).decide_action 16).1 = "Turn ON Heater" :=
  (decide_action_classifies (AgentBasedThermostat.init 22) 16 (by norm_num
    [AgentBasedThermostat.init])).2.2.1
    (by norm_num [AgentBasedThermostat.init, AgentBasedThermostat.perceive,
      AgentBasedThermostat.learn_and_adapt, lastSlice])

/-- Counterexample to C5 as stated: from a fresh thermostat, two 30°C
readings leave the preference at 22, but the third `decide_action(30)` call
changes `preferred_temp` (to 22.1) — a state change beyond the two appends
the claim allows. -/
theorem decide_action_effect_counterexample :
    ((((AgentBasedThermostat.init 22).decide_action 30).2.decide_action 30).2.decide_action
        30).2.preferred_temp
      ≠ ((((AgentBasedThermostat.init 22).decide_action 30).2.decide_action 30).2).preferred_temp := by
  norm_num [AgentBasedThermostat.decide_action, AgentBasedThermostat.perceive,
    AgentBasedThermostat.learn_and_adapt, AgentBasedThermostat.init, lastSlice]

/-- C5 (amended): the action returned by `decide_action` is a pure function
of (temperature history, `preferred_temp`, `tolerance`, `learning_rate`) —
the last is fixed at 0.1 in every instance the program constructs — and the
state effects of a call are exactly: the two bounded appends (reading to the
history, returned action to the action log) plus the `learn_and_adapt`
update of `preferred_temp`; `tolerance` and `learning_rate` never change. -/
theorem decide_action_pure_and_frame :
    (∀ s₁ s₂ : AgentBasedThermostat, ∀ t : ℚ,
      s₁.temperature_history = s₂.temperature_history →
      s₁.preferred_temp = s₂.preferred_temp →
      s₁.tolerance = s₂.tolerance →
      s₁.learning_rate = s₂.learning_rate →
      (s₁.decide_action t).1 = (s₂.decide_action t).1) ∧
    (∀ s : AgentBasedThermostat, ∀ t : ℚ,
      (s.decide_action t).2.tolerance = s.tolerance ∧
      (s.decide_action t).2.learning_rate = s.learning_rate ∧
      (s.decide_action t).2.temperature_history = lastSlice 10 (s.temperature_history ++ [t]) ∧
      (s.decide_action t).2.action_history
        = lastSlice 10 (s.action_history ++ [(s.decide_action t).1]) ∧
      (s.decide_action t).2.preferred_temp = ((s.perceive t).learn_and_adapt).preferred_temp) := by
  constructor
  · intro s₁ s₂ t hh hp ht hl
    have hpref : ((s₁.perceive t).learn_and_adapt).preferred_temp
        = ((s₂.perceive t).learn_and_adapt).preferred_temp := by
      refine AgentBasedThermostat.learn_and_adapt_pref_congr _ _ ?_ ?_ ?_ ?_
      · rw [AgentBasedThermostat.perceive_temperature_history,
          AgentBasedThermostat.perceive_temperature_history, hh]
      · rw [AgentBasedThermostat.perceive_preferred_temp,
          AgentBasedThermostat.perceive_preferred_temp, hp]
      · rw [AgentBasedThermostat.perceive_tolerance,
          AgentBasedThermostat.perceive_tolerance, ht]
      · rw [AgentBasedThermostat.perceive_learning_rate,
          AgentBasedThermostat.perceive_learning_rate, hl]
    rw [AgentBasedThermostat.decide_action_fst, AgentBasedThermostat.decide_action_fst,
      hpref, ht]
  · intro s t
    exact ⟨AgentBasedThermostat.decide_action_tolerance s t,
      AgentBasedThermostat.decide_action_learning_rate s t,
      AgentBasedThermostat.decide_action_temperature_history s t,
      AgentBasedThermostat.decide_action_action_history s t, rfl⟩

/-- Witness for C5 (amended): two states agreeing on history, preference,
tolerance and learning rate but with different action logs return the same
action. -/
theorem decide_action_pure_and_frame_witness :
    ((AgentBasedThermostat.init 22).decide_action 16).1
      = ((AgentBasedThermostat.mk 22 [] ["Maintain"] (1/10) 2).decide_action 16).1 :=
  decide_action_pure_and_frame.1 (AgentBasedThermostat.init 22)
    (AgentBasedThermostat.mk 22 [] ["Maintain"] (1/10) 2) 16 rfl rfl rfl rfl

/-- C8: the demo run of `agent_based_thermostat.py` (`__main__`, capacity 10,
tolerance 2, learning rate 0.1, initial preference 22) on
`[16, 19, 22, 26, 28, 24, 20, 21, 27, 18]` produces exactly this category
sequence — the embedding is a pure function, so any two runs agree
definitionally, and this theorem pins the unique output — and the final
preference (22.1) lies in `[18, 26]`. -/
theorem demo_sequence_run :
    (runDecisions (AgentBasedThermostat.init 22) [16, 19, 22, 26, 28, 24, 20, 21, 27, 18]).1
      = ["Turn ON Heater", "Turn ON Heater", "Maintain", "Turn ON AC", "Turn ON AC",
         "Maintain", "Turn ON Heater", "Maintain", "Turn ON AC", "Turn ON Heater"] ∧
    18 ≤ (runDecisions (AgentBasedThermostat.init 22)
      [16, 19, 22, 26, 28, 24, 20, 21, 27, 18]).2.preferred_temp ∧
    (runDecisions (AgentBasedThermostat.init 22)
      [16, 19, 22, 26, 28, 24, 20, 21, 27, 18]).2.preferred_temp ≤ 26 := by
  refine ⟨?_, ?_, ?_⟩ <;>
    norm_num [runDecisions, AgentBasedThermostat.decide_action,
      AgentBasedThermostat.perceive, AgentBasedThermostat.learn_and_adapt,
      AgentBasedThermostat.init, lastSlice]

/-- C9: `RuleBasedThermostat.decide_action` reads only the two thresholds
fixed at construction (18 and 25) and the current temperature; it is
embedded as a pure function (the method mutates nothing), so any two calls
at the same temperature agree definitionally. Strictly below 18 turns the
heater on, strictly above 25 turns the AC on, and anything in `[18, 25]`
does nothing. -/
theorem rule_based_decide (t : ℚ) :
    (t < 18 → RuleBasedThermostat.init.decide_action t = "Turn ON Heater") ∧
    (25 < t → RuleBasedThermostat.init.decide_action t = "Turn ON AC") ∧
    (18 ≤ t → t ≤ 25 → RuleBasedThermostat.init.decide_action t = "Do Nothing") := by
  refine ⟨fun h => ?_, fun h => ?_, fun h1 h2 => ?_⟩ <;>
    simp only [RuleBasedThermostat.decide_action, RuleBasedThermostat.init]
  · rw [if_pos h]
  · rw [if_neg (by push_neg; linarith), if_pos h]
  · rw [if_neg (not_lt.mpr h1), if_neg (not_lt.mpr h2)]

/-- Witness for C9 at 16°C, 30°C and 20°C. -/
theorem rule_based_decide_witness :
    RuleBasedThermostat.init.decide_action 16 = "Turn ON Heater" ∧
    RuleBasedThermostat.init.decide_action 30 = "Turn ON AC" ∧
    RuleBasedThermostat.init.decide_action 20 = "Do Nothing" :=
  ⟨(rule_based_decide 16).1 (by norm_num), (rule_based_decide 30).2.1 (by norm_num),
    (rule_based_decide 20).2.2 (by norm_num) (by norm_num)⟩

/-- C10: for every `DecisionCriteria`, the decision-tree walk of
`evaluate_workflow` terminates: starting from `"start"` with 14 units of fuel
(one per tree key) it reaches a node outside the tree — so the `while` loop
exits rather than exhausting fuel — visiting each node at most once along a
path of at most 8 steps, and the recommended automation type is one of the
seven `AutomationType` values (unknown terminals fall back to
`NOT_SUITABLE` through the map's default). -/
theorem evaluate_workflow_terminates (c : DecisionCriteria) :
    (walkTree c 14 "start" []).1 ∉ decisionTreeKeys ∧
    (walkTree c 14 "start" []).2.Nodup ∧
    (walkTree c 14 "start" []).2.length ≤ 8 ∧
    (evaluate_workflow c).1 ∈ [AutomationType.TRADITIONAL, AutomationType.CHATBOT,
      AutomationType.SINGLE_AGENT, AutomationType.MANAGER_PATTERN,
      AutomationType.HANDOFF_PATTERN, AutomationType.HYBRID,
      AutomationType.NOT_SUITABLE] := by
  obtain ⟨w, rd, cs, nlp, tv, ho, ms, ei, mc, cg, mu, se, cc, sp⟩ := c
  cases w with
  | false =>
    cases cs with
    | false => simp [walkTree, nextNode, decisionTreeKeys, evaluate_workflow, automationTypeMap]
    | true =>
      cases nlp with
      | false => simp [walkTree, nextNode, decisionTreeKeys, evaluate_workflow, automationTypeMap]
      | true =>
        cases tv with
        | false =>
          simp [walkTree, nextNode, decisionTreeKeys, evaluate_workflow, automationTypeMap]
        | true =>
          cases mc with
          | false =>
            simp [walkTree, nextNode, decisionTreeKeys, evaluate_workflow, automationTypeMap]
          | true =>
            cases cg <;>
              simp [walkTree, nextNode, decisionTreeKeys, evaluate_workflow, automationTypeMap]
  | true =>
    cases rd with
    | false => simp [walkTree, nextNode, decisionTreeKeys, evaluate_workflow, automationTypeMap]
    | true =>
      cases ho with
      | false => simp [walkTree, nextNode, decisionTreeKeys, evaluate_workflow, automationTypeMap]
      | true =>
        cases ms with
        | false =>
          simp [walkTree, nextNode, decisionTreeKeys, evaluate_workflow, automationTypeMap]
        | true =>
          cases ei with
          | false =>
            simp [walkTree, nextNode, decisionTreeKeys, evaluate_workflow, automationTypeMap]
          | true =>
            cases mu with
            | false =>
              simp [walkTree, nextNode, decisionTreeKeys, evaluate_workflow, automationTypeMap]
            | true =>
              cases se with
              | false =>
                cases cc <;>
                  simp [walkTree, nextNode, decisionTreeKeys, evaluate_workflow,
                    automationTypeMap]
              | true =>
                by_cases hs : sp = "sequential"
                · subst hs
                  simp [walkTree, nextNode, decisionTreeKeys, evaluate_workflow,
                    automationTypeMap]
                · simp [walkTree, nextNode, decisionTreeKeys, evaluate_workflow,
                    automationTypeMap, hs]

end GenAILab
